import Mathlib

/-!
Verification of the social-posts service (FastAPI MVC application).

This file shallowly embeds the parts of the source relevant to the frozen
claims:

* `src/config.py`              — the `Settings` constants;
* `src/services/auth_service.py`  — password hashing delegation, JWT
  issue/verify, signup, login, current-user resolution;
* `src/repositories/user_repository.py` — the account store operations;
* `src/services/post_service.py`  — create/list/delete with the per-user
  post cache;
* `src/repositories/post_repository.py` — the post store operations;
* `src/schemas/post.py`        — post text validation.

Conventions of the embedding:

* Time is a `Nat` counting seconds; every operation that reads the clock
  (`datetime.utcnow()`, `time.time()`) takes the current instant as an
  explicit argument.
* The relational stores are `List`s of records; `query(...).filter(...)
  .first()` becomes `List.find?`, the `users.email` unique constraint
  becomes an explicit membership test in `UserRepository.create` (the
  `IntegrityError` branch of the source rolls back and returns `None`,
  which here is the `none` branch with the state unchanged).
* A JWT is modelled structurally as its payload together with the signing
  key and algorithm actually used to produce it; `jose.jwt.encode` is
  injective serialization, so `jose.jwt.decode` succeeds exactly on tokens
  carrying the configured key and algorithm whose expiry has not passed
  (python-jose rejects a token when `exp < now`).
* Python code that can raise an unhandled exception is modelled in
  `PyResult`; `.ok` is a normal return, `.exn` an escaping exception.
-/

set_option autoImplicit false

namespace SocialPosts

/-! ## `src/config.py` — Settings -/

def SECRET_KEY : String := "your-secret-key-change-in-production"

def ALGORITHM : String := "HS256"

def ACCESS_TOKEN_EXPIRE_MINUTES : Nat := 30

def MAX_PAYLOAD_SIZE : Nat := 1024 * 1024

def CACHE_EXPIRE_MINUTES : Nat := 5

/-! ## Token model (python-jose collaborator)

`create_access_token` is called with `data = {"sub": str(user.id),
"email": user.email}` and adds an `"exp"` claim.  A decoded payload is a
dictionary; the resolver reads `"sub"` with `.get`, which can be absent,
so the subject is an `Option String`. -/

structure Claims where
  sub : Option String
  email : String
  exp : Nat
deriving DecidableEq, Repr

structure Token where
  claims : Claims
  key : String
  alg : String
deriving DecidableEq, Repr

structure TokenResponse where
  token : Token
  token_type : String := "bearer"
deriving DecidableEq, Repr

/-- `AuthService.create_access_token` (src/services/auth_service.py:25-31):
copies the data dictionary, sets `exp = utcnow() + timedelta(minutes =
ACCESS_TOKEN_EXPIRE_MINUTES)` and signs with `SECRET_KEY` / `ALGORITHM`. -/
def create_access_token (now : Nat) (sub : Option String) (email : String) : Token :=
  { claims := { sub := sub, email := email, exp := now + 60 * ACCESS_TOKEN_EXPIRE_MINUTES }
    key := SECRET_KEY
    alg := ALGORITHM }

/-- `AuthService.verify_token` (src/services/auth_service.py:33-39):
`jwt.decode(token, SECRET_KEY, algorithms=[ALGORITHM])`, returning `None`
on any `JWTError` (bad key, wrong algorithm, expired: jose raises
`ExpiredSignatureError` when `exp < now`). -/
def verify_token (now : Nat) (t : Token) : Option Claims :=
  if t.key = SECRET_KEY ∧ t.alg = ALGORITHM ∧ now ≤ t.claims.exp then
    some t.claims
  else
    none

/-- C3: a token issued by `create_access_token` for subject `id` verifies,
before the 30-minute TTL has elapsed, to a claim set whose subject is `id`;
after the TTL has elapsed, `verify_token` returns `None`. -/
theorem verify_issue_roundtrip (id email : String) (t0 t1 : Nat) :
    (t1 < t0 + 1800 →
      verify_token t1 (create_access_token t0 (some id) email) =
        some { sub := some id, email := email, exp := t0 + 1800 }) ∧
    (t0 + 1800 < t1 →
      verify_token t1 (create_access_token t0 (some id) email) = none) := by
  constructor
  · intro h
    simp only [verify_token, create_access_token, ACCESS_TOKEN_EXPIRE_MINUTES]
    rw [if_pos]
    exact ⟨trivial, trivial, by omega⟩
  · intro h
    simp only [verify_token, create_access_token, ACCESS_TOKEN_EXPIRE_MINUTES]
    rw [if_neg]
    intro hc
    exact absurd hc.2.2 (by omega)

/-- Witness for C3 at subject `"42"`, issue instant 0, verify instants 100
(within TTL) and 1801 (after TTL). -/
theorem verify_issue_roundtrip_witness :
    (100 < 0 + 1800 ∧
      verify_token 100 (create_access_token 0 (some "42") "a@x.com") =
        some { sub := some "42", email := "a@x.com", exp := 0 + 1800 }) ∧
    (0 + 1800 < 1801 ∧
      verify_token 1801 (create_access_token 0 (some "42") "a@x.com") = none) :=
  ⟨⟨by decide, (verify_issue_roundtrip "42" "a@x.com" 0 100).1 (by decide)⟩,
   ⟨by decide, (verify_issue_roundtrip "42" "a@x.com" 0 1801).2 (by decide)⟩⟩

/-! ## `src/models/user.py` and `src/repositories/user_repository.py` -/

structure User where
  id : Nat
  email : String
  hashed_password : String
  is_active : Bool
deriving DecidableEq, Repr

/-- The account store: the `users` table (rows in insertion order) plus the
autoincrement counter for the integer primary key. -/
structure UserStore where
  users : List User
  nextId : Nat
deriving DecidableEq, Repr

namespace UserRepository

/-- `UserRepository.get_by_email` (src/repositories/user_repository.py:11-13):
`query(User).filter(User.email == email).first()`. -/
def get_by_email (users : List User) (email : String) : Option User :=
  users.find? (fun u => u.email = email)

/-- `UserRepository.get_by_id` (src/repositories/user_repository.py:15-17):
`query(User).filter(User.id == user_id).first()`.  The caller passes the
result of Python `int(...)`, hence an `Int` argument. -/
def get_by_id (users : List User) (user_id : Int) : Option User :=
  users.find? (fun u => (u.id : Int) = user_id)

/-- `UserRepository.create` (src/repositories/user_repository.py:19-32):
inserts `User(email, hashed_password)` and commits; the `users.email`
column is declared `unique`, so committing a duplicate email raises
`IntegrityError`, which the source catches, rolls back, and returns
`None`.  `is_active` defaults to true; `id` is the autoincrement value. -/
def create (s : UserStore) (email hashed_password : String) :
    Option User × UserStore :=
  if s.users.any (fun u => u.email = email) then
    (none, s)
  else
    let u : User := { id := s.nextId, email := email,
                      hashed_password := hashed_password, is_active := true }
    (some u, { users := s.users ++ [u], nextId := s.nextId + 1 })

/-- `UserRepository.is_active` (src/repositories/user_repository.py:34-36). -/
def is_active (u : User) : Bool :=
  u.is_active

end UserRepository

/-! ## `src/services/auth_service.py` — signup / login

`pwd_context.hash` (passlib bcrypt, an external collaborator drawing a
random salt) is passed in as an opaque function `hashFn`; likewise
`pwd_context.verify`'s boolean outcome on well-formed hashes is `verifyFn`
in `login`. -/

namespace AuthService

/-- `AuthService.signup` (src/services/auth_service.py:41-59): reject when
`get_by_email` finds the address; otherwise hash, `UserRepository.create`
(returning `None` on failure, i.e. the unique-constraint race), then issue
a token for `{"sub": str(user.id), "email": user.email}`. -/
def signup (hashFn : String → String) (now : Nat) (s : UserStore)
    (email password : String) : Option TokenResponse × UserStore :=
  match UserRepository.get_by_email s.users email with
  | some _ => (none, s)
  | none =>
    let hashed_password := hashFn password
    match UserRepository.create s email hashed_password with
    | (none, s1) => (none, s1)
    | (some user, s1) =>
      let access_token := create_access_token now (some (toString user.id)) user.email
      (some { token := access_token }, s1)

/-- `AuthService.login` (src/services/auth_service.py:61-76): look up by
email; `None` when absent or inactive; `None` when the password does not
verify; otherwise issue a token. -/
def login (verifyFn : String → String → Bool) (now : Nat) (s : UserStore)
    (email password : String) : Option TokenResponse :=
  match UserRepository.get_by_email s.users email with
  | none => none
  | some user =>
    if ¬ UserRepository.is_active user then none
    else if ¬ verifyFn password user.hashed_password then none
    else some { token := create_access_token now (some (toString user.id)) user.email }

/-- Folding a batch of signup attempts, used to speak about "any later
Signup" after arbitrary intervening signups. -/
def runSignups (hashFn : String → String) : UserStore → List (Nat × String × String) → UserStore
  | s, [] => s
  | s, (now, email, password) :: rest =>
    runSignups hashFn (signup hashFn now s email password).2 rest

end AuthService

/-- An email is taken exactly when some stored account carries it. -/
def emailTaken (s : UserStore) (email : String) : Bool :=
  s.users.any (fun u => u.email = email)

lemma get_by_email_eq_none_iff (users : List User) (email : String) :
    UserRepository.get_by_email users email = none ↔
      users.any (fun u => u.email = email) = false := by
  simp [UserRepository.get_by_email, List.find?_eq_none, List.any_eq_false]

/-- A signup, whatever its arguments and outcome, never frees a taken
email: the failure branches keep the store, the success branch appends. -/
lemma emailTaken_mono (hashFn : String → String) (now : Nat) (s : UserStore)
    (email password e : String) (h : emailTaken s e = true) :
    emailTaken (AuthService.signup hashFn now s email password).2 e = true := by
  unfold AuthService.signup
  cases hfind : UserRepository.get_by_email s.users email with
  | some u => simpa using h
  | none =>
    simp only
    unfold UserRepository.create
    rw [if_neg]
    · simp only [emailTaken, List.any_append] at h ⊢
      rw [h]
      rfl
    · intro hc
      rw [get_by_email_eq_none_iff] at hfind
      rw [hfind] at hc
      exact Bool.noConfusion hc

lemma emailTaken_runSignups (hashFn : String → String) (s : UserStore)
    (ops : List (Nat × String × String)) (e : String) (h : emailTaken s e = true) :
    emailTaken (AuthService.runSignups hashFn s ops) e = true := by
  induction ops generalizing s with
  | nil => exact h
  | cons op rest ih =>
    obtain ⟨now, email, password⟩ := op
    exact ih _ (emailTaken_mono hashFn now s email password e h)

/-- C2: (1) when `E` is free, signup succeeds and the store gains exactly
the one new account; (2) when `E` is taken, signup returns `None`
(Conflict) with the store unchanged — and this remains so after any
sequence of further signups; (3) every failing signup leaves the store
unchanged (no partial account). -/
theorem signup_unique (hashFn : String → String) (now : Nat) (s : UserStore)
    (E password : String) :
    (emailTaken s E = false →
      (AuthService.signup hashFn now s E password).1.isSome = true ∧
      (AuthService.signup hashFn now s E password).2.users =
        s.users ++ [{ id := s.nextId, email := E,
                      hashed_password := hashFn password, is_active := true }]) ∧
    (∀ ops : List (Nat × String × String), emailTaken s E = true →
      AuthService.signup hashFn now (AuthService.runSignups hashFn s ops) E password =
        (none, AuthService.runSignups hashFn s ops)) ∧
    ((AuthService.signup hashFn now s E password).1 = none →
      (AuthService.signup hashFn now s E password).2 = s) := by
  refine ⟨?_, ?_, ?_⟩
  · intro hfree
    have hnone : UserRepository.get_by_email s.users E = none := by
      rw [get_by_email_eq_none_iff]
      exact hfree
    unfold AuthService.signup
    rw [hnone]
    simp only
    unfold UserRepository.create
    rw [if_neg (by simpa [emailTaken] using hfree)]
    exact ⟨rfl, rfl⟩
  · intro ops htaken
    have htaken2 := emailTaken_runSignups hashFn s ops E htaken
    have hsome : ∃ u, UserRepository.get_by_email
        (AuthService.runSignups hashFn s ops).users E = some u := by
      rcases hfind : UserRepository.get_by_email
          (AuthService.runSignups hashFn s ops).users E with _ | u
      · rw [get_by_email_eq_none_iff] at hfind
        rw [emailTaken, hfind] at htaken2
        exact Bool.noConfusion htaken2
      · exact ⟨u, rfl⟩
    obtain ⟨u, hu⟩ := hsome
    unfold AuthService.signup
    rw [hu]
  · intro hfail
    unfold AuthService.signup at hfail ⊢
    cases hfind : UserRepository.get_by_email s.users E with
    | some u => rfl
    | none =>
      rw [hfind] at hfail
      simp only at hfail ⊢
      unfold UserRepository.create at hfail ⊢
      by_cases hdup : s.users.any (fun u => u.email = E) = true
      · rw [if_pos hdup]
      · rw [if_neg hdup] at hfail
        exact Option.noConfusion hfail

/-- Witness for C2 on a concrete store: `a@x.com` free in the empty store,
then taken after the successful signup, and a failing duplicate signup
leaves the store unchanged. -/
theorem signup_unique_witness :
    (emailTaken ⟨[], 1⟩ "a@x.com" = false ∧
      (AuthService.signup (fun p => "h:" ++ p) 0 ⟨[], 1⟩ "a@x.com" "pass1234").1.isSome = true ∧
      (AuthService.signup (fun p => "h:" ++ p) 0 ⟨[], 1⟩ "a@x.com" "pass1234").2.users =
        [] ++ [{ id := 1, email := "a@x.com",
                 hashed_password := (fun p => "h:" ++ p) "pass1234", is_active := true }]) ∧
    (emailTaken ⟨[⟨1, "a@x.com", "h:pass1234", true⟩], 2⟩ "a@x.com" = true ∧
      AuthService.signup (fun p => "h:" ++ p) 7
          (AuthService.runSignups (fun p => "h:" ++ p) ⟨[⟨1, "a@x.com", "h:pass1234", true⟩], 2⟩ [])
          "a@x.com" "other999" =
        (none, AuthService.runSignups (fun p => "h:" ++ p)
          ⟨[⟨1, "a@x.com", "h:pass1234", true⟩], 2⟩ [])) :=
  ⟨⟨by decide,
    (signup_unique (fun p => "h:" ++ p) 0 ⟨[], 1⟩ "a@x.com" "pass1234").1 (by decide)⟩,
   ⟨by decide,
    (signup_unique (fun p => "h:" ++ p) 7 ⟨[⟨1, "a@x.com", "h:pass1234", true⟩], 2⟩
      "a@x.com" "other999").2.1 [] (by decide)⟩⟩

/-- C5: `login` returns `None` (Unauthorized, rendered identically by the
controller whatever the cause) exactly when the account looked up by email
is absent, or inactive, or the stored hash does not verify against the
supplied password. -/
theorem login_unauthorized_iff (verifyFn : String → String → Bool) (now : Nat)
    (s : UserStore) (email password : String) :
    AuthService.login verifyFn now s email password = none ↔
      (UserRepository.get_by_email s.users email = none ∨
       ∃ u, UserRepository.get_by_email s.users email = some u ∧
         (u.is_active = false ∨ verifyFn password u.hashed_password = false)) := by
  unfold AuthService.login
  cases hfind : UserRepository.get_by_email s.users email with
  | none => simp
  | some u =>
    simp only [UserRepository.is_active]
    rcases Bool.eq_false_or_eq_true u.is_active with ha | ha <;>
      rcases Bool.eq_false_or_eq_true (verifyFn password u.hashed_password) with hvf | hvf <;>
        simp [ha, hvf]

/-! ## `AuthService.get_current_user` — identity resolution

`get_current_user` (src/services/auth_service.py:78-92) runs
`int(user_id)` on the `"sub"` claim of a verified payload; Python `int`
raises `ValueError` on a non-numeric string, and nothing in the function
or in the `get_current_user` dependency (src/dependencies/
auth_dependency.py:10-25) catches it.  `PyResult` makes that escape path
explicit. -/

inductive PyResult (α : Type) where
  | ok : α → PyResult α
  | exn : String → PyResult α
deriving DecidableEq, Repr

def isAsciiDigit (c : Char) : Bool :=
  '0' ≤ c && c ≤ '9'

def digitsToNat (l : List Char) : Nat :=
  l.foldl (fun n c => n * 10 + (c.toNat - 48)) 0

/-- Python `int(s)` on a string: an integer for an optional-sign run of
decimal digits, `ValueError` otherwise (Python additionally tolerates
surrounding whitespace and underscores, which no claim exercises). -/
def pyInt (s : String) : Option Int :=
  match s.data with
  | [] => none
  | '-' :: rest =>
    if rest ≠ [] ∧ rest.all isAsciiDigit then some (-(digitsToNat rest : Int)) else none
  | '+' :: rest =>
    if rest ≠ [] ∧ rest.all isAsciiDigit then some (digitsToNat rest) else none
  | l =>
    if l.all isAsciiDigit then some (digitsToNat l) else none

namespace AuthService

/-- `AuthService.get_current_user` (src/services/auth_service.py:78-92):
verify the token (`None` → unauthorized); read `payload.get("sub")`
(absent or falsy, i.e. the empty string, → unauthorized); convert with
`int(...)` (raises on non-numeric input); look the account up by id;
unauthorized when missing or inactive. -/
def get_current_user (now : Nat) (users : List User) (tok : Token) :
    PyResult (Option User) :=
  match verify_token now tok with
  | none => .ok none
  | some payload =>
    match payload.sub with
    | none => .ok none
    | some user_id =>
      if user_id = "" then .ok none
      else
        match pyInt user_id with
        | none => .exn "ValueError"
        | some uid =>
          match UserRepository.get_by_id users uid with
          | none => .ok none
          | some user =>
            if ¬ UserRepository.is_active user then .ok none
            else .ok (some user)

end AuthService

lemma verify_token_claims (now : Nat) (tok : Token) (c : Claims)
    (h : verify_token now tok = some c) : c = tok.claims := by
  unfold verify_token at h
  by_cases hc : tok.key = SECRET_KEY ∧ tok.alg = ALGORITHM ∧ now ≤ tok.claims.exp
  · rw [if_pos hc] at h
    exact (Option.some.inj h).symm
  · rw [if_neg hc] at h
    exact Option.noConfusion h

/-- C6 counterexample: a token signed with the configured secret and
algorithm, unexpired, whose subject claim is the non-numeric string
`"abc"`, makes identity resolution raise `ValueError` (from
`int(user_id)`) instead of returning an account or Unauthorized. -/
theorem get_current_user_raises_on_nonnumeric_sub :
    AuthService.get_current_user 0 []
        { claims := { sub := some "abc", email := "e@x.com", exp := 1000 }
          key := SECRET_KEY, alg := "HS256" } =
      .exn "ValueError" := by
  decide

/-- C6 (amended): identity resolution never raises — returning an account
or Unauthorized — provided every present, non-empty subject claim of the
token parses as an integer (true of every token the service issues, whose
subject is `str(user.id)`); a token failing verification, a missing
subject, and a subject identifying no account or an inactive account all
yield Unauthorized; and the lookup uses only the subject claim, never the
email claim. -/
theorem get_current_user_amended (now : Nat) (users : List User) (tok : Token)
    (hparse : ∀ sid, tok.claims.sub = some sid → sid ≠ "" → (pyInt sid).isSome = true) :
    (∃ r, AuthService.get_current_user now users tok = .ok r) ∧
    (verify_token now tok = none →
      AuthService.get_current_user now users tok = .ok none) ∧
    (tok.claims.sub = none →
      AuthService.get_current_user now users tok = .ok none) ∧
    (∀ sid uid, tok.claims.sub = some sid → pyInt sid = some uid →
      (UserRepository.get_by_id users uid = none ∨
       ∃ u, UserRepository.get_by_id users uid = some u ∧ u.is_active = false) →
      AuthService.get_current_user now users tok = .ok none) ∧
    (∀ key alg sub exp e1 e2,
      AuthService.get_current_user now users ⟨⟨sub, e1, exp⟩, key, alg⟩ =
      AuthService.get_current_user now users ⟨⟨sub, e2, exp⟩, key, alg⟩) := by
  refine ⟨?_, ?_, ?_, ?_, ?_⟩
  · cases hv : verify_token now tok with
    | none => exact ⟨none, by simp [AuthService.get_current_user, hv]⟩
    | some c =>
      have hc := verify_token_claims now tok c hv
      subst hc
      cases hsub : tok.claims.sub with
      | none => exact ⟨none, by simp [AuthService.get_current_user, hv, hsub]⟩
      | some sid =>
        by_cases hsid : sid = ""
        · exact ⟨none, by simp [AuthService.get_current_user, hv, hsub, hsid]⟩
        · have hps := hparse sid hsub hsid
          cases hpi : pyInt sid with
          | none => rw [hpi] at hps; exact Bool.noConfusion hps
          | some uid =>
            cases hlu : UserRepository.get_by_id users uid with
            | none =>
              exact ⟨none, by simp [AuthService.get_current_user, hv, hsub, hsid, hpi, hlu]⟩
            | some user =>
              rcases Bool.eq_false_or_eq_true user.is_active with hact | hact
              · exact ⟨some user, by simp [AuthService.get_current_user, hv, hsub, hsid, hpi,
                  hlu, UserRepository.is_active, hact]⟩
              · exact ⟨none, by simp [AuthService.get_current_user, hv, hsub, hsid, hpi, hlu,
                  UserRepository.is_active, hact]⟩
  · intro hv
    simp [AuthService.get_current_user, hv]
  · intro hsub
    cases hv : verify_token now tok with
    | none => simp [AuthService.get_current_user, hv]
    | some c =>
      have hc := verify_token_claims now tok c hv
      subst hc
      simp [AuthService.get_current_user, hv, hsub]
  · intro sid uid hsub hpi hlu
    cases hv : verify_token now tok with
    | none => simp [AuthService.get_current_user, hv]
    | some c =>
      have hc := verify_token_claims now tok c hv
      subst hc
      have hsid : ¬ sid = "" := by
        intro he
        subst he
        rw [show pyInt "" = none from rfl] at hpi
        exact Option.noConfusion hpi
      rcases hlu with hnone | ⟨u, hu, hinact⟩
      · simp [AuthService.get_current_user, hv, hsub, hsid, hpi, hnone]
      · simp [AuthService.get_current_user, hv, hsub, hsid, hpi, hu,
          UserRepository.is_active, hinact]
  · intro key alg sub exp e1 e2
    unfold AuthService.get_current_user verify_token
    by_cases hc : key = SECRET_KEY ∧ alg = ALGORITHM ∧ now ≤ exp
    · rw [if_pos hc, if_pos hc]
    · rw [if_neg hc, if_neg hc]

/-- An inactive account, used to witness C6 (amended). -/
def c6InactiveUser : User :=
  { id := 5, email := "e@x.com", hashed_password := "h", is_active := false }

/-- The token the service would issue for subject `"5"`, used to witness
C6 (amended). -/
def c6IssuedToken : Token :=
  { claims := { sub := some "5", email := "e@x.com", exp := 100 }
    key := SECRET_KEY
    alg := "HS256" }

/-- Witness for C6 (amended) at a store holding the inactive account 5 and
the token the service would issue for subject `"5"`: resolution returns
Unauthorized without raising. -/
theorem get_current_user_amended_witness :
    AuthService.get_current_user 0 [c6InactiveUser] c6IssuedToken = .ok none :=
  (get_current_user_amended 0 [c6InactiveUser] c6IssuedToken
    (by intro sid h hne; injection h with h2; subst h2; decide)).2.2.2.1
    "5" 5 rfl rfl (Or.inr ⟨c6InactiveUser, rfl, rfl⟩)

/-! ## `src/models/post.py`, `src/schemas/post.py` — posts and responses -/

structure Post where
  id : Nat
  text : String
  user_id : Nat
  created_at : Nat
  updated_at : Nat
deriving DecidableEq, Repr

structure PostResponse where
  id : Nat
  text : String
  user_id : Nat
  created_at : Nat
  updated_at : Nat
deriving DecidableEq, Repr

/-- `PostResponse.from_orm` (src/schemas/post.py:30-38): the response
projects the ORM row's fields. -/
def PostResponse.from_orm (p : Post) : PostResponse :=
  { id := p.id, text := p.text, user_id := p.user_id,
    created_at := p.created_at, updated_at := p.updated_at }

structure PostCreateResponse where
  postID : Nat
  message : String := "Post created successfully"
deriving DecidableEq, Repr

structure PostsListResponse where
  posts : List PostResponse
  total : Nat
  cached : Bool
deriving DecidableEq, Repr

structure PostDeleteResponse where
  message : String := "Post deleted successfully"
  postID : Nat
deriving DecidableEq, Repr

/-! ## `src/repositories/post_repository.py` -/

/-- Insertion step of `ORDER BY created_at DESC`: keep rows that are at
least as recent in front. -/
def insertByCreatedDesc (p : Post) : List Post → List Post
  | [] => [p]
  | q :: qs => if p.created_at ≤ q.created_at then q :: insertByCreatedDesc p qs
               else p :: q :: qs

/-- `ORDER BY created_at DESC` on a result set (ties in an unspecified but
deterministic order, as with the database). -/
def sortByCreatedDesc : List Post → List Post
  | [] => []
  | p :: ps => insertByCreatedDesc p (sortByCreatedDesc ps)

namespace PostRepository

/-- `PostRepository.get_by_id` (src/repositories/post_repository.py:26-28):
`query(Post).filter(Post.id == post_id).first()`. -/
def get_by_id (posts : List Post) (post_id : Nat) : Option Post :=
  posts.find? (fun p => p.id = post_id)

/-- `PostRepository.get_user_posts` (src/repositories/post_repository.py:
30-35): filter by `user_id`, order by `created_at` descending. -/
def get_user_posts (posts : List Post) (user_id : Nat) : List Post :=
  sortByCreatedDesc (posts.filter (fun p => p.user_id = user_id))

/-- `PostRepository.is_owner` (src/repositories/post_repository.py:47-49):
`post.user_id == user_id if post else False`; the embedding's `post` is
always a row, so only the comparison arm applies. -/
def is_owner (post : Post) (user_id : Nat) : Bool :=
  post.user_id = user_id

end PostRepository

/-! ## `src/services/post_service.py` -/

/-- The state one `PostService` instance acts on: the `posts` table with
its autoincrement counter, and `self._cache`, keyed by
`f"user_posts_{user_id}"` (the key determines and is determined by
`user_id`), holding `(post_responses, cache_time)` snapshots. -/
structure PostServiceState where
  posts : List Post
  nextId : Nat
  cache : Nat → Option (List PostResponse × Nat)

namespace PostService

/-- `PostService.create_post` (src/services/post_service.py:13-24) with
`PostRepository.create` (src/repositories/post_repository.py:11-24)
inlined on its commit path (the `SQLAlchemyError` branch rolls back and
returns `None`, leaving every state component unchanged): insert the row,
then delete the owner's cache entry if present. -/
def create_post (s : PostServiceState) (text : String) (user_id : Nat) (now : Nat) :
    Option PostCreateResponse × PostServiceState :=
  let db_post : Post := { id := s.nextId, text := text, user_id := user_id,
                          created_at := now, updated_at := now }
  (some { postID := db_post.id },
   { posts := s.posts ++ [db_post]
     nextId := s.nextId + 1
     cache := fun k => if k = user_id then none else s.cache k })

/-- `PostService.get_user_posts` (src/services/post_service.py:26-52):
serve a cache entry younger than 300 seconds with `cached=True`;
otherwise fetch from the store, cache the snapshot at the current
instant, and return it with `cached=False`. -/
def get_user_posts (s : PostServiceState) (user_id : Nat) (now : Nat) :
    PostsListResponse × PostServiceState :=
  let post_responses := (PostRepository.get_user_posts s.posts user_id).map PostResponse.from_orm
  let fetched : PostsListResponse × PostServiceState :=
    ({ posts := post_responses, total := post_responses.length, cached := false },
     { s with cache := fun k => if k = user_id then some (post_responses, now) else s.cache k })
  match s.cache user_id with
  | some (cached_data, cache_time) =>
    if now - cache_time < 300 then
      ({ posts := cached_data, total := cached_data.length, cached := true }, s)
    else fetched
  | none => fetched

/-- `PostService.delete_post` (src/services/post_service.py:54-71) with
`PostRepository.delete` (src/repositories/post_repository.py:37-45)
inlined on its commit path (its `SQLAlchemyError` branch rolls back,
returns `False`, and the service then returns `None` with nothing
changed): fetch by id (`None` → not found), check ownership (`None` on
mismatch), delete the row, then delete the requester's cache entry. -/
def delete_post (s : PostServiceState) (post_id : Nat) (user_id : Nat) :
    Option PostDeleteResponse × PostServiceState :=
  match PostRepository.get_by_id s.posts post_id with
  | none => (none, s)
  | some post =>
    if ¬ PostRepository.is_owner post user_id then (none, s)
    else
      (some { postID := post_id },
       { posts := s.posts.eraseP (fun q => q.id = post.id)
         nextId := s.nextId
         cache := fun k => if k = user_id then none else s.cache k })

end PostService

/-- C9: in every `List` response — cache hit or fresh fetch — the `total`
field equals the length of the `posts` sequence of that same response. -/
theorem list_total_eq_length (s : PostServiceState) (user_id now : Nat) :
    (PostService.get_user_posts s user_id now).1.total =
      (PostService.get_user_posts s user_id now).1.posts.length := by
  unfold PostService.get_user_posts
  cases hc : s.cache user_id with
  | none => rfl
  | some entry =>
    obtain ⟨data, ct⟩ := entry
    by_cases ht : now - ct < 300
    · simp only [ht, if_true]
    · simp only [ht, if_false]

/-- C4: `delete_post` returns the same `None` (rendered as 404 by the
controller) when no post has the requested id and when the post exists
but is owned by someone else; in the second case the store is untouched
and the post is still retrievable afterwards. -/
theorem delete_notfound_indistinguishable (s : PostServiceState)
    (post_id requester : Nat) :
    (PostRepository.get_by_id s.posts post_id = none →
      PostService.delete_post s post_id requester = (none, s)) ∧
    (∀ post, PostRepository.get_by_id s.posts post_id = some post →
      post.user_id ≠ requester →
      PostService.delete_post s post_id requester = (none, s) ∧
      PostRepository.get_by_id
        (PostService.delete_post s post_id requester).2.posts post_id = some post) := by
  constructor
  · intro hnone
    unfold PostService.delete_post
    rw [hnone]
  · intro post hfind hmismatch
    have hres : PostService.delete_post s post_id requester = (none, s) := by
      unfold PostService.delete_post
      rw [hfind]
      simp only [PostRepository.is_owner]
      rw [if_pos (by simpa using hmismatch)]
    exact ⟨hres, by rw [hres]; exact hfind⟩

/-- A one-post store owned by account 7, used to witness C4. -/
def c4State : PostServiceState :=
  { posts := [{ id := 1, text := "hello", user_id := 7, created_at := 0, updated_at := 0 }]
    nextId := 2
    cache := fun _ => none }

/-- Witness for C4: in `c4State`, deleting the absent post 2 and deleting
post 1 as the non-owner 8 both return `None` with the state unchanged,
and post 1 is still retrievable. -/
theorem delete_notfound_indistinguishable_witness :
    (PostRepository.get_by_id c4State.posts 2 = none ∧
      PostService.delete_post c4State 2 8 = (none, c4State)) ∧
    (PostRepository.get_by_id c4State.posts 1 =
        some { id := 1, text := "hello", user_id := 7, created_at := 0, updated_at := 0 } ∧
      (7 : Nat) ≠ 8 ∧
      PostService.delete_post c4State 1 8 = (none, c4State) ∧
      PostRepository.get_by_id (PostService.delete_post c4State 1 8).2.posts 1 =
        some { id := 1, text := "hello", user_id := 7, created_at := 0, updated_at := 0 }) :=
  ⟨⟨by decide, (delete_notfound_indistinguishable c4State 2 8).1 (by decide)⟩,
   ⟨by decide, by decide,
    (delete_notfound_indistinguishable c4State 1 8).2
      { id := 1, text := "hello", user_id := 7, created_at := 0, updated_at := 0 }
      (by decide) (by decide)⟩⟩

/-! ## Cache behaviour of the Post Orchestrator (one `PostService`
instance acting on its store and `self._cache`) -/

lemma length_insertByCreatedDesc (p : Post) (l : List Post) :
    (insertByCreatedDesc p l).length = l.length + 1 := by
  induction l with
  | nil => rfl
  | cons q qs ih =>
    unfold insertByCreatedDesc
    by_cases h : p.created_at ≤ q.created_at <;> simp [h, ih]

lemma length_sortByCreatedDesc (l : List Post) :
    (sortByCreatedDesc l).length = l.length := by
  induction l with
  | nil => rfl
  | cons p ps ih =>
    unfold sortByCreatedDesc
    rw [length_insertByCreatedDesc, ih, List.length_cons]

/-- The listing the fetch path computes from the store: the owner's rows,
ordered, projected to responses. -/
def storeListing (posts : List Post) (user_id : Nat) : List PostResponse :=
  (PostRepository.get_user_posts posts user_id).map PostResponse.from_orm

lemma storeListing_length (posts : List Post) (u : Nat) :
    (storeListing posts u).length = (posts.filter (fun p => p.user_id = u)).length := by
  simp [storeListing, PostRepository.get_user_posts, List.length_map, length_sortByCreatedDesc]

lemma length_filter_eraseP (l : List Post) (r q : Post → Bool) (x : Post)
    (hfind : l.find? r = some x) (hq : q x = true) :
    ((l.eraseP r).filter q).length + 1 = (l.filter q).length := by
  induction l with
  | nil => exact Option.noConfusion hfind
  | cons a t ih =>
    by_cases hra : r a = true
    · rw [List.find?_cons_of_pos _ hra] at hfind
      have hax : a = x := Option.some.inj hfind
      rw [List.eraseP_cons_of_pos hra, List.filter_cons_of_pos (hax ▸ hq)]
      simp
    · rw [List.find?_cons_of_neg _ hra] at hfind
      rw [List.eraseP_cons_of_neg hra]
      by_cases hqa : q a = true
      · rw [List.filter_cons_of_pos hqa, List.filter_cons_of_pos hqa]
        have hih := ih hfind
        simp only [List.length_cons]
        omega
      · rw [List.filter_cons_of_neg hqa, List.filter_cons_of_neg hqa]
        exact ih hfind

/-- The guard of the cache-hit branch: an entry for this owner exists and
is younger than 300 seconds. -/
def cacheHasFreshEntry (s : PostServiceState) (user_id now : Nat) : Bool :=
  match s.cache user_id with
  | some (_, cache_time) => decide (now - cache_time < 300)
  | none => false

lemma get_user_posts_of_not_fresh (s : PostServiceState) (u now : Nat)
    (h : cacheHasFreshEntry s u now = false) :
    PostService.get_user_posts s u now =
      ({ posts := storeListing s.posts u, total := (storeListing s.posts u).length,
         cached := false },
       { s with cache := fun k => if k = u then some (storeListing s.posts u, now)
                                  else s.cache k }) := by
  unfold PostService.get_user_posts
  unfold cacheHasFreshEntry at h
  cases hc : s.cache u with
  | none => rfl
  | some entry =>
    obtain ⟨data, ct⟩ := entry
    rw [hc] at h
    simp only at h
    dsimp only
    rw [if_neg (of_decide_eq_false h)]
    rfl

lemma get_user_posts_hit (s : PostServiceState) (u now : Nat)
    (data : List PostResponse) (ct : Nat)
    (hc : s.cache u = some (data, ct)) (ht : now - ct < 300) :
    PostService.get_user_posts s u now =
      ({ posts := data, total := data.length, cached := true }, s) := by
  unfold PostService.get_user_posts
  rw [hc]
  dsimp only
  rw [if_pos ht]

/-- A one-post store owned by account 7 with an empty cache, from which
three consecutive `List(7)` calls at instants 0, 1, 2 are made. -/
def c1State0 : PostServiceState :=
  { posts := [{ id := 1, text := "hello", user_id := 7, created_at := 0, updated_at := 0 }]
    nextId := 2
    cache := fun _ => none }

/-- State after the first `List(7)` call, at instant 0. -/
def c1State1 : PostServiceState := (PostService.get_user_posts c1State0 7 0).2

/-- State after the second `List(7)` call, at instant 1. -/
def c1State2 : PostServiceState := (PostService.get_user_posts c1State1 7 1).2

/-- C1 counterexample: three consecutive `List(7)` calls within the TTL
with no intervening write return `cached` = false, true, true; the second
and third calls are two consecutive `List` calls within the TTL with no
intervening Create or Delete, yet the first of that pair returns
`cached=true`, not `cached=false` as the claim requires. -/
theorem consecutive_lists_first_can_be_cached :
    (PostService.get_user_posts c1State0 7 0).1.cached = false ∧
    (PostService.get_user_posts c1State1 7 1).1.cached = true ∧
    (PostService.get_user_posts c1State2 7 2).1.cached = true :=
  ⟨rfl, rfl, rfl⟩

/-- C1 (amended): (create) after any Create for owner `u`, a `List(u)`
call at any instant returns a fresh fetch (`cached=false`) of exactly the
post-write store — in particular never the pre-write list, from which it
differs; (delete) likewise after any successful Delete by `u`; (pair) two
consecutive `List(u)` calls within the 300-second TTL with no intervening
write, the first made while the cache holds no fresh entry for `u`,
return `cached=false` then `cached=true` with the same posts. -/
theorem cache_invalidation_behavior :
    (∀ s text u now t,
      (PostService.get_user_posts (PostService.create_post s text u now).2 u t).1.cached
          = false ∧
      (PostService.get_user_posts (PostService.create_post s text u now).2 u t).1.posts
          = storeListing (PostService.create_post s text u now).2.posts u ∧
      (PostService.get_user_posts (PostService.create_post s text u now).2 u t).1.posts
          ≠ storeListing s.posts u) ∧
    (∀ s pid u t, (PostService.delete_post s pid u).1.isSome = true →
      (PostService.get_user_posts (PostService.delete_post s pid u).2 u t).1.cached
          = false ∧
      (PostService.get_user_posts (PostService.delete_post s pid u).2 u t).1.posts
          = storeListing (PostService.delete_post s pid u).2.posts u ∧
      (PostService.get_user_posts (PostService.delete_post s pid u).2 u t).1.posts
          ≠ storeListing s.posts u) ∧
    (∀ s u t1 t2, cacheHasFreshEntry s u t1 = false → t2 - t1 < 300 →
      (PostService.get_user_posts s u t1).1.cached = false ∧
      (PostService.get_user_posts (PostService.get_user_posts s u t1).2 u t2).1.cached
          = true ∧
      (PostService.get_user_posts (PostService.get_user_posts s u t1).2 u t2).1.posts
          = (PostService.get_user_posts s u t1).1.posts) := by
  refine ⟨?_, ?_, ?_⟩
  · intro s text u now t
    have hmiss : cacheHasFreshEntry (PostService.create_post s text u now).2 u t = false := by
      simp [cacheHasFreshEntry, PostService.create_post]
    rw [get_user_posts_of_not_fresh _ _ _ hmiss]
    refine ⟨rfl, rfl, ?_⟩
    intro heq
    have hlen := congrArg List.length heq
    rw [storeListing_length, storeListing_length] at hlen
    have hposts : (PostService.create_post s text u now).2.posts =
        s.posts ++ [{ id := s.nextId, text := text, user_id := u,
                      created_at := now, updated_at := now }] := rfl
    rw [hposts, List.filter_append] at hlen
    simp at hlen
  · intro s pid u t hsome
    unfold PostService.delete_post at hsome ⊢
    cases hfind : PostRepository.get_by_id s.posts pid with
    | none => rw [hfind] at hsome; exact Bool.noConfusion hsome
    | some post =>
      rw [hfind] at hsome
      dsimp only at hsome ⊢
      by_cases how : PostRepository.is_owner post u = true
      · rw [if_neg (by simp [how])] at hsome ⊢
        dsimp only at hsome ⊢
        have howner : post.user_id = u := by
          simpa [PostRepository.is_owner] using how
        have hmiss : cacheHasFreshEntry
            { posts := s.posts.eraseP (fun q => q.id = post.id), nextId := s.nextId,
              cache := fun k => if k = u then none else s.cache k } u t = false := by
          simp [cacheHasFreshEntry]
        rw [get_user_posts_of_not_fresh _ _ _ hmiss]
        refine ⟨rfl, rfl, ?_⟩
        intro heq
        have hlen := congrArg List.length heq
        rw [storeListing_length, storeListing_length] at hlen
        have hcount := length_filter_eraseP s.posts (fun q => q.id = post.id)
          (fun p => p.user_id = u) post ?hfindpost (by simp [howner])
        · simp only at hlen
          omega
        case hfindpost =>
          have hpid : post.id = pid := by
            have := List.find?_some hfind
            simpa using this
          rw [← hpid] at hfind
          exact hfind
      · rw [if_pos (by simpa using how)] at hsome
        exact Bool.noConfusion hsome
  · intro s u t1 t2 hmiss httl
    rw [get_user_posts_of_not_fresh _ _ _ hmiss]
    refine ⟨rfl, ?_, ?_⟩
    · rw [get_user_posts_hit _ _ _ (storeListing s.posts u) t1 (by simp) httl]
    · rw [get_user_posts_hit _ _ _ (storeListing s.posts u) t1 (by simp) httl]

/-- Witness for C1 (amended) on `c1State0`: owner 7 deletes post 1 and
the next `List(7)` is a fresh fetch differing from the pre-write list;
and from the empty cache two `List(7)` calls at instants 0 and 5 return
`cached=false` then `cached=true` with the same posts. -/
theorem cache_invalidation_behavior_witness :
    ((PostService.delete_post c1State0 1 7).1.isSome = true ∧
      (PostService.get_user_posts (PostService.delete_post c1State0 1 7).2 7 3).1.cached
          = false ∧
      (PostService.get_user_posts (PostService.delete_post c1State0 1 7).2 7 3).1.posts
          = storeListing (PostService.delete_post c1State0 1 7).2.posts 7 ∧
      (PostService.get_user_posts (PostService.delete_post c1State0 1 7).2 7 3).1.posts
          ≠ storeListing c1State0.posts 7) ∧
    (cacheHasFreshEntry c1State0 7 0 = false ∧ 5 - 0 < 300 ∧
      (PostService.get_user_posts c1State0 7 0).1.cached = false ∧
      (PostService.get_user_posts (PostService.get_user_posts c1State0 7 0).2 7 5).1.cached
          = true ∧
      (PostService.get_user_posts (PostService.get_user_posts c1State0 7 0).2 7 5).1.posts
          = (PostService.get_user_posts c1State0 7 0).1.posts) := by
  refine ⟨⟨by decide, ?_⟩, by decide, by decide, ?_⟩
  · have h := cache_invalidation_behavior.2.1 c1State0 1 7 3 (by decide)
    exact ⟨h.1, h.2.1, h.2.2⟩
  · have h := cache_invalidation_behavior.2.2 c1State0 7 0 5 (by decide) (by decide)
    exact ⟨h.1, h.2.1, h.2.2⟩

/-! ## `src/schemas/post.py` — `PostCreate` text validation -/

/-- UTF-8 byte length of one character, as `len(str.encode('utf-8'))`
counts it. -/
def charUtf8Size (c : Char) : Nat :=
  if c.val ≤ 0x7F then 1
  else if c.val ≤ 0x7FF then 2
  else if c.val ≤ 0xFFFF then 3
  else 4

/-- `len(v.encode('utf-8'))` (src/schemas/post.py:17). -/
def utf8Len (s : String) : Nat :=
  (s.data.map charUtf8Size).sum

lemma charUtf8Size_le_four (c : Char) : charUtf8Size c ≤ 4 := by
  unfold charUtf8Size
  split
  · omega
  · split
    · omega
    · split
      · omega
      · omega

lemma sum_charUtf8Size_le (l : List Char) : (l.map charUtf8Size).sum ≤ 4 * l.length := by
  induction l with
  | nil => simp
  | cons c cs ih =>
    have h := charUtf8Size_le_four c
    simp only [List.map_cons, List.sum_cons, List.length_cons]
    omega

lemma utf8Len_le_four_mul_length (s : String) : utf8Len s ≤ 4 * s.length :=
  sum_charUtf8Size_le s.data

/-- Python `v.strip()` with no argument: drop leading and trailing
whitespace (`Char.isWhitespace` covers the space, tab, CR and LF the
claims exercise). -/
def pyStrip (s : String) : String :=
  String.mk (((s.data.dropWhile Char.isWhitespace).reverse.dropWhile
    Char.isWhitespace).reverse)

/-- `PostCreate` text validation (src/schemas/post.py:5-20): pydantic
checks `min_length=1` and `max_length=10000` on the character count of
the raw input, then `validate_text_size` rejects a UTF-8 byte size over
`1024 * 1024` and returns `v.strip()`, which is the value the service
passes to storage. -/
def validate_post_text (text : String) : Option String :=
  if text.length < 1 then none
  else if 10000 < text.length then none
  else if 1024 * 1024 < utf8Len text then none
  else some (pyStrip text)

/-- C8: validation accepts every text of exactly 10,000 characters,
rejects every text of 10,001 characters, rejects the empty string, and
every accepted text has UTF-8 byte size at most 1,048,576. -/
theorem text_validation_bounds :
    (∀ t : String, t.length = 10000 → (validate_post_text t).isSome = true) ∧
    (∀ t : String, t.length = 10001 → validate_post_text t = none) ∧
    validate_post_text "" = none ∧
    (∀ t r : String, validate_post_text t = some r → utf8Len t ≤ 1024 * 1024) := by
  refine ⟨?_, ?_, by decide, ?_⟩
  · intro t h
    have hb := utf8Len_le_four_mul_length t
    unfold validate_post_text
    rw [if_neg (by omega), if_neg (by omega), if_neg (by omega)]
    rfl
  · intro t h
    unfold validate_post_text
    rw [if_neg (by omega), if_pos (by omega)]
  · intro t r h
    unfold validate_post_text at h
    by_cases h1 : t.length < 1
    · rw [if_pos h1] at h
      exact Option.noConfusion h
    · rw [if_neg h1] at h
      by_cases h2 : 10000 < t.length
      · rw [if_pos h2] at h
        exact Option.noConfusion h
      · rw [if_neg h2] at h
        by_cases h3 : 1024 * 1024 < utf8Len t
        · rw [if_pos h3] at h
          exact Option.noConfusion h
        · omega

/-- A text of exactly 10,000 characters. -/
def tenThousandChars : String := String.mk (List.replicate 10000 'a')

/-- A text of 10,001 characters. -/
def overLongText : String := String.mk (List.replicate 10001 'a')

/-- Witness for C8 at a 10,000-character text (accepted), a
10,001-character text (rejected), and the accepted one-character text
`"a"` (byte size within the 1MB bound). -/
theorem text_validation_bounds_witness :
    (tenThousandChars.length = 10000 ∧
      (validate_post_text tenThousandChars).isSome = true) ∧
    (overLongText.length = 10001 ∧ validate_post_text overLongText = none) ∧
    (validate_post_text "a" = some "a" ∧ utf8Len "a" ≤ 1024 * 1024) := by
  have h1 : tenThousandChars.length = 10000 := List.length_replicate 10000 'a'
  have h2 : overLongText.length = 10001 := List.length_replicate 10001 'a'
  have h3 : validate_post_text "a" = some "a" := by decide
  exact ⟨⟨h1, text_validation_bounds.1 _ h1⟩,
         ⟨h2, text_validation_bounds.2.1 _ h2⟩,
         ⟨h3, text_validation_bounds.2.2.2 "a" "a" h3⟩⟩

/-- A text of 10,001 whitespace characters. -/
def wsOverLong : String := String.mk (List.replicate 10001 ' ')

/-- C10 counterexample: the input of 10,001 space characters consists
solely of whitespace and has length at least 1, yet validation rejects it
(pydantic's `max_length=10000` fires on the untrimmed input), so not
every whitespace-only input of length at least 1 is accepted. -/
theorem whitespace_over_limit_rejected : validate_post_text wsOverLong = none := by
  have h : wsOverLong.length = 10001 := List.length_replicate 10001 ' '
  unfold validate_post_text
  rw [if_neg (by omega), if_pos (by omega)]

/-- C10 (amended): the character bounds and the byte bound are checked on
the untrimmed input and only then is surrounding whitespace stripped, so
every input of 1 to 10,000 whitespace characters is accepted by
validation and the text passed to storage — and stored in the created
post — is the empty string. -/
theorem whitespace_only_stored_empty (t : String)
    (h1 : 1 ≤ t.length) (h2 : t.length ≤ 10000)
    (hw : ∀ c ∈ t.data, c.isWhitespace = true) :
    validate_post_text t = some "" ∧
    ∀ s u now, (PostService.create_post s ((validate_post_text t).getD "x") u now).2.posts =
      s.posts ++ [{ id := s.nextId, text := "", user_id := u,
                    created_at := now, updated_at := now }] := by
  have hstrip : pyStrip t = "" := by
    have hnil : t.data.dropWhile Char.isWhitespace = [] := by
      rw [List.dropWhile_eq_nil_iff]
      simpa using hw
    unfold pyStrip
    rw [hnil]
    decide
  have hval : validate_post_text t = some "" := by
    have hb := utf8Len_le_four_mul_length t
    unfold validate_post_text
    rw [if_neg (by omega), if_neg (by omega), if_neg (by omega), hstrip]
  refine ⟨hval, ?_⟩
  intro s u now
  rw [hval]
  rfl

/-- An empty store with an empty cache, used to witness C10 (amended). -/
def c10State : PostServiceState :=
  { posts := [], nextId := 1, cache := fun _ => none }

/-- Witness for C10 (amended) at the single-space input: accepted, and
the post created from the validated value stores the empty string. -/
theorem whitespace_only_stored_empty_witness :
    (1 ≤ (" " : String).length ∧ (" " : String).length ≤ 10000 ∧
      ∀ c ∈ (" " : String).data, c.isWhitespace = true) ∧
    validate_post_text " " = some "" ∧
    (PostService.create_post c10State ((validate_post_text " ").getD "x") 7 3).2.posts =
      c10State.posts ++ [{ id := c10State.nextId, text := "", user_id := 7,
                           created_at := 3, updated_at := 3 }] := by
  have h := whitespace_only_stored_empty " " (by decide) (by decide) (by decide)
  exact ⟨⟨by decide, by decide, by decide⟩, h.1, h.2 c10State 7 3⟩

/-! ## `AuthService.verify_password` and the passlib collaborator -/

/-- Whether the first list of characters is an initial segment of the
second. -/
def charsStartWith : List Char → List Char → Bool
  | [], _ => true
  | _ :: _, [] => false
  | c :: cs, d :: ds => c = d && charsStartWith cs ds

/-- Modelled from the passlib collaborator: `CryptContext(schemes=
["bcrypt"])` identifies a hash by its scheme marker (`$2$`, `$2a$`,
`$2b$`, `$2x$`, `$2y$` for bcrypt). -/
def bcryptIdentify (hashed : String) : Bool :=
  ["$2$", "$2a$", "$2b$", "$2x$", "$2y$"].any
    (fun marker => charsStartWith marker.data hashed.data)

/-- Modelled from the passlib collaborator: `CryptContext.verify(secret,
hash)` raises `UnknownHashError` ("hash could not be identified", a
`ValueError`) when the hash matches no configured scheme; on an
identified bcrypt hash the boolean outcome of the salted recomputation is
the collaborator function `checkFn`. -/
def cryptContextVerify (checkFn : String → String → Bool)
    (secret hashed : String) : PyResult Bool :=
  if bcryptIdentify hashed then .ok (checkFn secret hashed)
  else .exn "UnknownHashError"

/-- `AuthService.verify_password` (src/services/auth_service.py:17-19):
`self.pwd_context.verify(plain_password, hashed_password)`, delegating
directly to the context with no exception handling. -/
def AuthService.verify_password (checkFn : String → String → Bool)
    (plain_password hashed_password : String) : PyResult Bool :=
  cryptContextVerify checkFn plain_password hashed_password

/-- C7: evaluating `verify_password` at the malformed hash
`"not-a-valid-hash"` — whatever the bcrypt comparison would return — it
raises `UnknownHashError` instead of returning `false` as the claim
requires. -/
theorem verify_password_raises_on_malformed_hash :
    AuthService.verify_password (fun _ _ => false) "password1" "not-a-valid-hash" =
      .exn "UnknownHashError" ∧
    AuthService.verify_password (fun _ _ => true) "password1" "not-a-valid-hash" =
      .exn "UnknownHashError" :=
  ⟨rfl, rfl⟩

end SocialPosts
